import Mathlib

/-!
# Verification of the gerbera/mediatomb UPnP device-dispatch subsystem

The repository ships the public contract of the Device Dispatcher in
`src/mediaserver/src/server.h` (class `Server`): lifecycle (`upnp_init`,
`upnp_cleanup`), the transport callback `upnp_callback`, the routing
functions `upnp_actions` / `upnp_subscriptions`, and the accessors
`getVirtualURL`, `getDeviceHandle`, `getIP`, `getPort`, over the state
fields `device_handle`, `upnp_mutex`, `serverUDN`, `virtual_directory`,
`virtual_url`, `device_description_document`, `alive_advertisement`,
`cds`, `cmgr`.

The implementation file of the class is not part of the sources, only the
header with its documentation comments; every operational definition below
is therefore modelled from the specification's description of the
behaviour, keeping the header's names and state fields.
-/

namespace Gerbera

/-! ## Requests and services (spec §3, §6) -/

/-- Service identifiers are stable URN-style strings. -/
abbrev ServiceId := String

/-- Modelled from the spec: an Action Request
`{ service_id, action_name, ordered arguments }` (spec §3); the in-process
form of an incoming control invocation (header: `action_request.h`,
not in the sources). -/
structure ActionRequest where
  service_id : ServiceId
  action_name : String
  args : List (String × String)
deriving DecidableEq, Repr

/-- Modelled from the spec: a Subscription Request
`{ service_id, subscriber identity, requested duration }` (spec §3); the
in-process form of an incoming event-subscription request (header:
`subscription_request.h`, not in the sources). -/
structure SubscriptionRequest where
  service_id : ServiceId
  subscriber : String
  duration : Nat
deriving DecidableEq, Repr

/-- An application-level error returned by a registered service. -/
structure ServiceError where
  code : Nat
  msg : String
deriving DecidableEq, Repr

/-- Modelled from the spec: the service capability contract (spec §6):
`process_action_request(request) -> result | error`,
`process_subscription_request(request) -> result | error`, together with
the stable service id the instance is registered under.  The concrete
classes `ContentDirectoryService` / `ConnectionManagerService`
(`upnp_cds.h` / `upnp_cm.h`) are not in the sources. -/
structure Service where
  serviceId : ServiceId
  process_action_request : ActionRequest → Except ServiceError String
  process_subscription_request : SubscriptionRequest → Except ServiceError String

/-- Names the two registered services: the Content Directory service
(`Server::cds`) and the Connection Manager service (`Server::cmgr`). -/
inductive ServiceTag
  | cds
  | cmgr
deriving DecidableEq, Repr

/-- Modelled from the spec: the Service Registry (spec §2, §6) is the fixed
two-entry table `{content-directory id → cds, connection-manager id → cmgr}`,
populated at construction and never mutated. -/
structure Registry where
  cds : Service
  cmgr : Service

/-- The service instance a tag names. -/
def Registry.service (r : Registry) : ServiceTag → Service
  | ServiceTag.cds => r.cds
  | ServiceTag.cmgr => r.cmgr

/-- Registry lookup by service id: first the content-directory id, then the
connection-manager id, mirroring the fixed hand-coded two-entry table the
dispatcher routes over (header doc of `upnp_actions` / `upnp_subscriptions`:
"looks at the service id of the request and calls the process function for
the appropriate service"). -/
def Registry.lookup (r : Registry) (sid : ServiceId) : Option ServiceTag :=
  if sid = r.cds.serviceId then some ServiceTag.cds
  else if sid = r.cmgr.serviceId then some ServiceTag.cmgr
  else none

/-- The observable outcome of dispatching one request: either the matched
service's verbatim result (`ok`/`serviceError`) or a routing error naming
the unknown service id (spec §4.3, §7). -/
inductive DispatchResult
  | ok (out : String)
  | serviceError (e : ServiceError)
  | routingError (sid : ServiceId)
deriving DecidableEq, Repr

/-- Embeds a service's own result verbatim into the dispatcher's
result type (spec §4.3: "propagate its result verbatim"). -/
def liftResult : Except ServiceError String → DispatchResult
  | Except.ok out => DispatchResult.ok out
  | Except.error e => DispatchResult.serviceError e

/-- Modelled from the spec: `Server::upnp_actions` (header lines 165-172,
implementation not in the sources): look up the request's service id in the
registry; if found, forward to that service's `process_action_request` and
propagate its result verbatim; if not found, produce a routing error naming
the unknown id (spec §4.3).  The second component records which services'
processing functions were invoked. -/
def upnp_actions (r : Registry) (request : ActionRequest) :
    DispatchResult × List ServiceTag :=
  match r.lookup request.service_id with
  | some t => (liftResult ((r.service t).process_action_request request), [t])
  | none => (DispatchResult.routingError request.service_id, [])

/-- Modelled from the spec: `Server::upnp_subscriptions` (header lines
174-181, implementation not in the sources): same routing as
`upnp_actions`, forwarding to `process_subscription_request` (spec §4.3). -/
def upnp_subscriptions (r : Registry) (request : SubscriptionRequest) :
    DispatchResult × List ServiceTag :=
  match r.lookup request.service_id with
  | some t => (liftResult ((r.service t).process_subscription_request request), [t])
  | none => (DispatchResult.routingError request.service_id, [])

/-! ## Sample registry used by the witnesses -/

/-- A concrete Content Directory service instance. -/
def sampleCDS : Service where
  serviceId := "urn:upnp-org:serviceId:ContentDirectory"
  process_action_request := fun a =>
    if a.action_name = "Browse" then Except.ok "browse-result"
    else Except.error ⟨401, "Invalid Action"⟩
  process_subscription_request := fun _ => Except.ok "cds-subscribed"

/-- A concrete Connection Manager service instance. -/
def sampleCM : Service where
  serviceId := "urn:upnp-org:serviceId:ConnectionManager"
  process_action_request := fun _ => Except.ok "cm-action"
  process_subscription_request := fun _ => Except.ok "cm-subscribed"

/-- The sample fixed two-entry registry. -/
def sampleRegistry : Registry where
  cds := sampleCDS
  cmgr := sampleCM

/-! ## Transport adapter and the Server's state (spec §2, §3, §6) -/

/-- Modelled from the spec: the external transport adapter at its boundary
(spec §6): `register(description, callback) -> handle | error`,
`advertise(handle, interval)`, `unregister(handle)`, plus the actual bound
address/port, which may differ from the requested ones (spec §4.1). -/
structure Transport where
  boundIP : String
  boundPort : Nat
  registerOk : Bool
  handle : Nat
deriving DecidableEq, Repr

/-- Configuration inputs the dispatcher consumes (spec §6): the UDN and the
advertisement interval (requested bind address/port are passed to
`upnp_init` separately). -/
structure Config where
  udn : String
  interval : Nat
deriving DecidableEq, Repr

/-- The Device Dispatcher's state: the protected fields of class `Server`
(header lines 104-163).  `device_handle` is `none` while no device is
registered with the transport; the mutex-protected routing path is modelled
separately as a transition system (see `CallbackSys`). -/
structure Server where
  device_handle : Option Nat
  serverUDN : String
  virtual_directory : String
  virtual_url : String
  ip : String
  port : Nat
  device_description_document : String
  alive_advertisement : Nat
  advertising : Bool
deriving DecidableEq, Repr

/-- The state a freshly constructed `Server` is in, before `init` and
`upnp_init`: nothing registered, identity fields empty (spec §4.4: accessors
called before `upnp_init` yield an unspecified/empty value). -/
def Server.initial : Server where
  device_handle := none
  serverUDN := ""
  virtual_directory := ""
  virtual_url := ""
  ip := ""
  port := 0
  device_description_document := ""
  alive_advertisement := 0
  advertising := false

/-- Startup errors (spec §7: fatal startup errors). -/
inductive InitError
  | missingUDN
  | registrationFailed
deriving DecidableEq, Repr

/-- Modelled from the spec: `Server::init` (header lines 36-43,
implementation not in the sources): reads UDN, advertisement interval and
virtual directory name from configuration; fails fatally on a missing UDN
(spec §4.1); no transport interaction yet.  The virtual directory is the
fixed well-known segment `content` (header doc of `virtual_directory`,
spec §6). -/
def Server.init (c : Config) (s : Server) : Except InitError Server :=
  if c.udn = "" then Except.error InitError.missingUDN
  else Except.ok { s with
    serverUDN := c.udn
    alive_advertisement := c.interval
    virtual_directory := "content" }

/-- Modelled from the spec: the Device Description Builder (spec §2, §6):
an XML-like document assembled once from device identity and the actual
bound address (implementation not in the sources). -/
def buildDescription (udn ip : String) (port : Nat) : String :=
  "<device><UDN>" ++ udn ++ "</UDN><presentationURL>http://" ++ ip ++ ":"
    ++ toString port ++ "</presentationURL></device>"

/-- Modelled from the spec: `Server::upnp_init` (header lines 46-55,
implementation not in the sources): binds the transport (which may choose a
different actual port), builds the device description document from
identity plus the actual bound address, registers the device obtaining
`device_handle`, computes and caches the Virtual URL
(scheme + ip + port + virtual directory, spec §3), and starts alive
advertisement.  Fails with a startup error if registration fails, leaving
the state unchanged (spec §4.1, §7).  The requested address and port are
advisory (spec §6): the actual bound values come from the transport. -/
def Server.upnp_init (s : Server) (tr : Transport) (_reqIP : String)
    (_reqPort : Nat) : Except InitError Server :=
  if tr.registerOk then
    Except.ok { s with
      ip := tr.boundIP
      port := tr.boundPort
      device_description_document :=
        buildDescription s.serverUDN tr.boundIP tr.boundPort
      device_handle := some tr.handle
      virtual_url := "http://" ++ tr.boundIP ++ ":" ++ toString tr.boundPort
        ++ "/" ++ s.virtual_directory ++ "/"
      advertising := true }
  else Except.error InitError.registrationFailed

/-- Modelled from the spec: `Server::upnp_cleanup` (header lines 57-61,
implementation not in the sources): stops alive advertisement and
unregisters the device, releasing `device_handle`; safe to call when never
initialized or twice (idempotent no-op in that case), and leaves the
dispatcher re-initializable (spec §4.1). -/
def Server.upnp_cleanup (s : Server) : Server :=
  { s with device_handle := none, advertising := false }

/-- `Server::getVirtualURL` (header lines 63-68): returns the cached
virtual web server URL. -/
def Server.getVirtualURL (s : Server) : String :=
  s.virtual_url

/-- `Server::getDeviceHandle` (header lines 84-88): returns the device
handle stored in `device_handle`. -/
def Server.getDeviceHandle (s : Server) : Option Nat :=
  s.device_handle

/-- `Server::getIP` (header lines 90-94): string representation of the IP
the server is running on. -/
def Server.getIP (s : Server) : String :=
  s.ip

/-- `Server::getPort` (header lines 96-102): string representation of the
port the server is actually running on (not the configured one). -/
def Server.getPort (s : Server) : String :=
  toString s.port

/-! ## Request translation and the transport callback (spec §4.2, §4.3) -/

/-- The transport's event-type tags (`Upnp_EventType` of the UPnP SDK): the
two kinds the translator recognizes — an action invocation and a
subscription request — plus the other tags the SDK can deliver, which are
outside the translator's closed fixed table (spec §4.2). -/
inductive Upnp_EventType
  | controlActionRequest
  | eventSubscriptionRequest
  | controlGetVarRequest
  | controlActionComplete
  | discoveryAdvertisementAlive
  | discoveryAdvertisementByebye
  | discoverySearchResult
  | eventRenewalComplete
deriving DecidableEq, Repr

/-- The opaque event payload the transport hands to the callback: a
type-erased value the translator reinterprets according to the event-type
tag (spec §9: "event payload as an opaque, type-erased pointer dispatched
by a type tag"); both reinterpretations are carried explicitly. -/
structure EventPayload where
  asAction : ActionRequest
  asSubscription : SubscriptionRequest
deriving DecidableEq, Repr

/-- A translation error: the event type is not in the translator's closed
fixed table (spec §4.2, §7). -/
inductive TranslationError
  | unrecognizedEventType (et : Upnp_EventType)
deriving DecidableEq, Repr

/-- A translated in-process request (spec §4.2): exactly one of an Action
Request or a Subscription Request. -/
inductive Request
  | action (a : ActionRequest)
  | subscription (su : SubscriptionRequest)
deriving DecidableEq, Repr

/-- Modelled from the spec: the Request Translator (spec §4.2,
implementation not in the sources): converts an event-type tag plus opaque
payload into exactly one of an Action Request, a Subscription Request, or
an unrecognized-event outcome; the tag-to-kind mapping is a closed fixed
table, and unrecognized event types are reported as a translation error,
never silently ignored. -/
def translate (eventtype : Upnp_EventType) (event : EventPayload) :
    Except TranslationError Request :=
  match eventtype with
  | Upnp_EventType.controlActionRequest =>
      Except.ok (Request.action event.asAction)
  | Upnp_EventType.eventSubscriptionRequest =>
      Except.ok (Request.subscription event.asSubscription)
  | et => Except.error (TranslationError.unrecognizedEventType et)

/-- The transport-level status `upnp_callback` returns: either the routed
request's dispatch outcome, or a protocol-level translation failure
(spec §4.3 step 3, §7). -/
inductive CallbackStatus
  | processed (res : DispatchResult)
  | translationError (e : TranslationError)
deriving DecidableEq, Repr

/-- Modelled from the spec: `Server::upnp_callback` (header lines 70-82,
implementation not in the sources): the single entry point for every
incoming event.  Inside the critical section (modelled separately by
`CallbackSys`) it delegates to the Request Translator, routes an Action
Request to `upnp_actions` and a Subscription Request to
`upnp_subscriptions`, and on translation failure produces a protocol-level
error without invoking any service; the `cookie` argument is unused
(header doc, spec §6).  Returns the transport status, the list of service
processing functions invoked, and the dispatcher state after the call. -/
def Server.upnp_callback (s : Server) (r : Registry)
    (eventtype : Upnp_EventType) (event : EventPayload) (_cookie : Nat) :
    CallbackStatus × List ServiceTag × Server :=
  match translate eventtype event with
  | Except.error e => (CallbackStatus.translationError e, [], s)
  | Except.ok (Request.action a) =>
      let d := upnp_actions r a
      (CallbackStatus.processed d.1, d.2, s)
  | Except.ok (Request.subscription su) =>
      let d := upnp_subscriptions r su
      (CallbackStatus.processed d.1, d.2, s)

/-- One delivered transport event: type tag, payload, cookie. -/
structure Event where
  eventtype : Upnp_EventType
  event : EventPayload
  cookie : Nat
deriving DecidableEq, Repr

/-- Dispatches a sequence of events through `upnp_callback` in arrival
order, threading the dispatcher state. -/
def Server.runEvents (s : Server) (r : Registry) : List Event → Server
  | [] => s
  | e :: rest =>
      ((s.upnp_callback r e.eventtype e.event e.cookie).2.2).runEvents r rest

/-! ## Lifecycle histories (for invariant I1) -/

/-- One lifecycle operation applied to the dispatcher: an `upnp_init`
attempt against a given transport, an `upnp_cleanup`, or an event delivered
through `upnp_callback`. -/
inductive LifeOp
  | opInit (tr : Transport) (reqIP : String) (reqPort : Nat)
  | opCleanup
  | opEvent (r : Registry) (e : Event)

/-- Applies one lifecycle operation; a failed `upnp_init` leaves the state
unchanged (spec §4.1: init fails with a startup error, no partial
registration). -/
def applyOp (s : Server) : LifeOp → Server
  | LifeOp.opInit tr reqIP reqPort =>
      match s.upnp_init tr reqIP reqPort with
      | Except.ok s' => s'
      | Except.error _ => s
  | LifeOp.opCleanup => s.upnp_cleanup
  | LifeOp.opEvent r e => (s.upnp_callback r e.eventtype e.event e.cookie).2.2

/-- Runs a lifecycle history left to right. -/
def runOps (s : Server) (ops : List LifeOp) : Server :=
  ops.foldl applyOp s

/-- Whether, after this step, the device is inside a span opened by a
successful `upnp_init` and not yet closed by `upnp_cleanup` (spec I1):
a successful init opens the span, cleanup closes it, a failed init and
event dispatch leave it as it was. -/
def activeStep (b : Bool) : LifeOp → Bool
  | LifeOp.opInit tr _ _ => if tr.registerOk then true else b
  | LifeOp.opCleanup => false
  | LifeOp.opEvent _ _ => b

/-- A history ends inside an init/cleanup span iff its last span-changing
operation is a successful `upnp_init`. -/
def activeSpan (ops : List LifeOp) : Bool :=
  ops.foldl activeStep false

/-! ## The device-wide mutex protocol (spec §5, header `upnp_mutex`)

The header documents `upnp_mutex` as locked at the entry of
`upnp_callback` and unlocked after the event has been processed, so that
only one UPnP request is processed at a time.  The protocol is modelled as
a transition system over the transport's calling threads: each thread is
outside the callback, inside the critical section (translating and
routing), or done; a thread enters only by acquiring the free mutex and
leaves by releasing it. -/

/-- Where one transport thread stands relative to `upnp_callback`. -/
inductive ThreadPC
  | idle
  | critical
  | done
deriving DecidableEq, Repr

/-- The state of the mutex protocol for `n` transport threads: each
thread's position and the holder of `upnp_mutex` (`none` when free). -/
structure CallbackSys (n : Nat) where
  pc : Fin n → ThreadPC
  upnp_mutex : Option (Fin n)

/-- Initially every transport thread is outside the callback and the mutex
is free. -/
def CallbackSys.start (n : Nat) : CallbackSys n where
  pc := fun _ => ThreadPC.idle
  upnp_mutex := none

/-- Modelled from the spec: the steps of the mutex protocol (spec §5,
header doc of `upnp_mutex`, implementation not in the sources): a thread
entering `upnp_callback` acquires the mutex only when it is free, and the
thread holding it releases it when its event has been processed. -/
inductive CallbackStep {n : Nat} : CallbackSys n → CallbackSys n → Prop
  | acquire (s : CallbackSys n) (t : Fin n) :
      s.upnp_mutex = none → s.pc t = ThreadPC.idle →
      CallbackStep s ⟨Function.update s.pc t ThreadPC.critical, some t⟩
  | release (s : CallbackSys n) (t : Fin n) :
      s.upnp_mutex = some t → s.pc t = ThreadPC.critical →
      CallbackStep s ⟨Function.update s.pc t ThreadPC.done, none⟩

/-- The states the protocol can reach from the initial state. -/
inductive CallbackReachable {n : Nat} : CallbackSys n → Prop
  | start : CallbackReachable (CallbackSys.start n)
  | step {s s' : CallbackSys n} :
      CallbackReachable s → CallbackStep s s' → CallbackReachable s'

/-- Any thread inside the critical section holds `upnp_mutex`. -/
def MutexInv {n : Nat} (s : CallbackSys n) : Prop :=
  ∀ t : Fin n, s.pc t = ThreadPC.critical → s.upnp_mutex = some t

/-! ## Concrete instances used by the witnesses -/

/-- The two-thread protocol state after thread 0 has acquired the mutex
and entered the critical section. -/
def sysAfterAcquire : CallbackSys 2 where
  pc := Function.update (CallbackSys.start 2).pc 0 ThreadPC.critical
  upnp_mutex := some 0

/-- A concrete transport that binds `192.0.2.1:49153` and registers the
device successfully under handle 7. -/
def witnessTransport : Transport where
  boundIP := "192.0.2.1"
  boundPort := 49153
  registerOk := true
  handle := 7

/-- The dispatcher state after a successful `upnp_init` of the fresh
server against `witnessTransport`. -/
def witnessServer : Server :=
  match Server.initial.upnp_init witnessTransport "0.0.0.0" 0 with
  | Except.ok s' => s'
  | Except.error _ => Server.initial

/-- A concrete delivered event: a Browse action for the Content Directory
service. -/
def sampleEvent : Event where
  eventtype := Upnp_EventType.controlActionRequest
  event :=
    { asAction := ⟨"urn:upnp-org:serviceId:ContentDirectory", "Browse", []⟩
      asSubscription := ⟨"urn:upnp-org:serviceId:ContentDirectory", "cb-url", 1800⟩ }
  cookie := 0

/-- The configuration of Scenario A: UDN `uuid:test-1234`. -/
def scenarioConfig : Config where
  udn := "uuid:test-1234"
  interval := 180

/-- The transport of Scenario A: requested bind `(0.0.0.0, 0)` is
advisory; the transport actually binds port `49153` on the given address. -/
def scenarioTransport (ipaddr : String) : Transport where
  boundIP := ipaddr
  boundPort := 49153
  registerOk := true
  handle := 1

lemma mutexInv_start (n : Nat) : MutexInv (CallbackSys.start n) := by
  intro t h
  simp [CallbackSys.start] at h

lemma mutexInv_step {n : Nat} {s s' : CallbackSys n} (hinv : MutexInv s)
    (hstep : CallbackStep s s') : MutexInv s' := by
  cases hstep with
  | acquire t hfree hidle =>
      intro t' hc
      by_cases het : t' = t
      · simp [het]
      · simp only [Function.update_noteq het] at hc
        exact absurd (hinv t' hc) (by simp [hfree])
  | release t hheld hcrit =>
      intro t' hc
      by_cases het : t' = t
      · subst het
        simp [Function.update_same] at hc
      · simp only [Function.update_noteq het] at hc
        have h2 := hinv t' hc
        rw [hheld] at h2
        exact absurd (Option.some_injective _ h2).symm het

lemma mutexInv_reachable {n : Nat} {s : CallbackSys n}
    (h : CallbackReachable s) : MutexInv s := by
  induction h with
  | start => exact mutexInv_start n
  | step _ hstep ih => exact mutexInv_step ih hstep

/-! ## Shared facts about dispatch -/

/-- `upnp_callback` returns the dispatcher state unchanged: routing reads
the registry and the request, never the mutable identity fields. -/
lemma upnp_callback_state (s : Server) (r : Registry) (et : Upnp_EventType)
    (ev : EventPayload) (ck : Nat) :
    (s.upnp_callback r et ev ck).2.2 = s := by
  unfold Server.upnp_callback
  cases translate et ev with
  | error e => rfl
  | ok req => cases req <;> rfl

/-- Dispatching any sequence of events leaves the dispatcher state as it
was. -/
lemma runEvents_id (r : Registry) (evs : List Event) :
    ∀ s : Server, s.runEvents r evs = s := by
  induction evs with
  | nil => intro s; rfl
  | cons e rest ih =>
      intro s
      rw [Server.runEvents, upnp_callback_state]
      exact ih s

/-- Along any lifecycle history, `device_handle` is occupied exactly when
the history sits inside an open init/cleanup span, given that this held at
the start. -/
lemma runOps_handle (ops : List LifeOp) :
    ∀ (s : Server) (b : Bool), s.device_handle.isSome = b →
      (runOps s ops).device_handle.isSome = ops.foldl activeStep b := by
  induction ops with
  | nil => intro s b hb; simpa [runOps] using hb
  | cons op rest ih =>
      intro s b hb
      simp only [runOps, List.foldl_cons] at ih ⊢
      apply ih
      cases op with
      | opInit tr reqIP reqPort =>
          by_cases hreg : tr.registerOk = true
          · simp [applyOp, Server.upnp_init, hreg, activeStep]
          · simp [applyOp, Server.upnp_init, hreg, activeStep, hb]
      | opCleanup => simp [applyOp, Server.upnp_cleanup, activeStep]
      | opEvent r e => simp [applyOp, upnp_callback_state, activeStep, hb]

/-! ## The claims -/

/-- C1: for every Action or Subscription Request whose service id is
present in the Service Registry, `upnp_actions` / `upnp_subscriptions`
forwards the request to exactly that service's `process_action_request` /
`process_subscription_request` — the invoked-service trace is exactly the
matched service — and the service's own result is propagated unchanged
(embedded verbatim by `liftResult`). -/
theorem upnp_routing_exact (r : Registry) (areq : ActionRequest)
    (sreq : SubscriptionRequest) (ta ts : ServiceTag)
    (ha : r.lookup areq.service_id = some ta)
    (hs : r.lookup sreq.service_id = some ts) :
    upnp_actions r areq =
      (liftResult ((r.service ta).process_action_request areq), [ta]) ∧
    upnp_subscriptions r sreq =
      (liftResult ((r.service ts).process_subscription_request sreq), [ts]) := by
  constructor
  · simp [upnp_actions, ha]
  · simp [upnp_subscriptions, hs]

/-- C1 witness: a Browse action for the content-directory id reaches the
Content Directory service alone, a subscription for the
connection-manager id reaches the Connection Manager service alone, each
result propagated verbatim. -/
theorem upnp_routing_exact_witness :
    upnp_actions sampleRegistry
        ⟨"urn:upnp-org:serviceId:ContentDirectory", "Browse", []⟩ =
      (liftResult ((sampleRegistry.service ServiceTag.cds).process_action_request
        ⟨"urn:upnp-org:serviceId:ContentDirectory", "Browse", []⟩),
       [ServiceTag.cds]) ∧
    upnp_subscriptions sampleRegistry
        ⟨"urn:upnp-org:serviceId:ConnectionManager", "cb-url", 1800⟩ =
      (liftResult ((sampleRegistry.service ServiceTag.cmgr).process_subscription_request
        ⟨"urn:upnp-org:serviceId:ConnectionManager", "cb-url", 1800⟩),
       [ServiceTag.cmgr]) :=
  upnp_routing_exact sampleRegistry _ _ ServiceTag.cds ServiceTag.cmgr rfl rfl

/-- C2: a request whose service id is absent from the registry invokes no
registered service (empty trace), yields a routing error naming the
unknown id, and that routing error is distinguishable from anything a
registered service can return: no verbatim-propagated service result is
ever a `routingError`. -/
theorem unknown_service_routing_error (r : Registry) (areq : ActionRequest)
    (sreq : SubscriptionRequest)
    (ha : r.lookup areq.service_id = none)
    (hs : r.lookup sreq.service_id = none) :
    upnp_actions r areq = (DispatchResult.routingError areq.service_id, []) ∧
    upnp_subscriptions r sreq =
      (DispatchResult.routingError sreq.service_id, []) ∧
    ∀ (res : Except ServiceError String) (sid : ServiceId),
      liftResult res ≠ DispatchResult.routingError sid := by
  refine ⟨?_, ?_, ?_⟩
  · simp [upnp_actions, ha]
  · simp [upnp_subscriptions, hs]
  · intro res sid
    cases res <;> simp [liftResult]

/-- C2 witness: an unknown URN reaches neither service and is reported as
a routing error. -/
theorem unknown_service_routing_error_witness :
    upnp_actions sampleRegistry ⟨"urn:upnp-org:serviceId:UnknownService", "Browse", []⟩ =
      (DispatchResult.routingError "urn:upnp-org:serviceId:UnknownService", []) ∧
    upnp_subscriptions sampleRegistry
        ⟨"urn:upnp-org:serviceId:UnknownService", "cb-url", 1800⟩ =
      (DispatchResult.routingError "urn:upnp-org:serviceId:UnknownService", []) ∧
    ∀ (res : Except ServiceError String) (sid : ServiceId),
      liftResult res ≠ DispatchResult.routingError sid :=
  unknown_service_routing_error sampleRegistry _ _ rfl rfl

/-- C3: the `upnp_mutex` protocol serializes event processing device-wide:
in every reachable protocol state, any thread that is translating-and-
routing inside `upnp_callback` holds the single device-wide mutex, and
hence no two threads are ever inside the critical section at once — the
services' processing functions never overlap in time and events are
processed in a single global total order. -/
theorem upnp_mutex_serializes {n : Nat} (s : CallbackSys n)
    (h : CallbackReachable s) :
    (∀ t : Fin n, s.pc t = ThreadPC.critical → s.upnp_mutex = some t) ∧
    ∀ t1 t2 : Fin n, s.pc t1 = ThreadPC.critical →
      s.pc t2 = ThreadPC.critical → t1 = t2 := by
  have hinv := mutexInv_reachable h
  refine ⟨hinv, ?_⟩
  intro t1 t2 h1 h2
  have e1 := hinv t1 h1
  have e2 := hinv t2 h2
  rw [e1] at e2
  exact Option.some_injective _ e2

/-- C3 witness: in the reachable two-thread state where thread 0 has
entered the critical section, thread 0 holds the mutex. -/
theorem upnp_mutex_serializes_witness :
    sysAfterAcquire.upnp_mutex = some 0 :=
  (upnp_mutex_serializes sysAfterAcquire
    (CallbackReachable.step CallbackReachable.start
      (CallbackStep.acquire (CallbackSys.start 2) 0 rfl rfl))).1 0
    (by simp [sysAfterAcquire])

/-- C4: along every lifecycle history starting from the fresh dispatcher,
`getDeviceHandle` returns a valid (occupied) handle exactly when the
history sits between a successful `upnp_init` and the matching
`upnp_cleanup`; outside that span it returns no valid handle. -/
theorem device_handle_valid_iff (ops : List LifeOp) :
    (runOps Server.initial ops).getDeviceHandle ≠ none ↔
      activeSpan ops = true := by
  have h := runOps_handle ops Server.initial false rfl
  rw [Server.getDeviceHandle, Option.ne_none_iff_isSome, h]
  exact Iff.rfl

/-- C5: `upnp_cleanup` on the never-initialized dispatcher is a no-op, a
second `upnp_cleanup` in succession is a no-op, and after any cleanup the
dispatcher can be initialized again successfully (given a transport whose
registration succeeds). -/
theorem upnp_cleanup_idempotent (s : Server) (tr : Transport)
    (reqIP : String) (reqPort : Nat) (hreg : tr.registerOk = true) :
    Server.initial.upnp_cleanup = Server.initial ∧
    s.upnp_cleanup.upnp_cleanup = s.upnp_cleanup ∧
    ∃ s', s.upnp_cleanup.upnp_init tr reqIP reqPort = Except.ok s' := by
  refine ⟨rfl, rfl, ?_⟩
  simp only [Server.upnp_init, hreg, if_true]
  exact ⟨_, rfl⟩

/-- C5 witness: cleanup of the fresh dispatcher is a no-op, twice-cleanup
collapses, and re-initialization against `witnessTransport` succeeds. -/
theorem upnp_cleanup_idempotent_witness :
    Server.initial.upnp_cleanup = Server.initial ∧
    Server.initial.upnp_cleanup.upnp_cleanup = Server.initial.upnp_cleanup ∧
    ∃ s', Server.initial.upnp_cleanup.upnp_init witnessTransport "0.0.0.0" 0 =
      Except.ok s' :=
  upnp_cleanup_idempotent Server.initial witnessTransport "0.0.0.0" 0 rfl

/-- C6: after a successful `upnp_init`, dispatching any sequence of events
through `upnp_callback` leaves every value read by `getVirtualURL`,
`getIP`, `getPort` and `getDeviceHandle` identical to its value fixed at
init time, and neither the Virtual URL nor the Device Description Document
is ever recomputed. -/
theorem accessors_immutable_after_init (s s' : Server) (tr : Transport)
    (reqIP : String) (reqPort : Nat) (r : Registry) (evs : List Event)
    (_hinit : s.upnp_init tr reqIP reqPort = Except.ok s') :
    (s'.runEvents r evs).getVirtualURL = s'.getVirtualURL ∧
    (s'.runEvents r evs).getIP = s'.getIP ∧
    (s'.runEvents r evs).getPort = s'.getPort ∧
    (s'.runEvents r evs).getDeviceHandle = s'.getDeviceHandle ∧
    (s'.runEvents r evs).virtual_url = s'.virtual_url ∧
    (s'.runEvents r evs).device_description_document =
      s'.device_description_document := by
  rw [runEvents_id]
  exact ⟨rfl, rfl, rfl, rfl, rfl, rfl⟩

/-- C6 witness: after initializing against `witnessTransport`, dispatching
a concrete Browse event changes none of the accessor-visible values. -/
theorem accessors_immutable_after_init_witness :
    (witnessServer.runEvents sampleRegistry [sampleEvent]).getVirtualURL =
      witnessServer.getVirtualURL ∧
    (witnessServer.runEvents sampleRegistry [sampleEvent]).getIP =
      witnessServer.getIP ∧
    (witnessServer.runEvents sampleRegistry [sampleEvent]).getPort =
      witnessServer.getPort ∧
    (witnessServer.runEvents sampleRegistry [sampleEvent]).getDeviceHandle =
      witnessServer.getDeviceHandle ∧
    (witnessServer.runEvents sampleRegistry [sampleEvent]).virtual_url =
      witnessServer.virtual_url ∧
    (witnessServer.runEvents sampleRegistry [sampleEvent]).device_description_document =
      witnessServer.device_description_document :=
  accessors_immutable_after_init Server.initial witnessServer witnessTransport
    "0.0.0.0" 0 sampleRegistry [sampleEvent] rfl

/-- C7 (Scenario A): with UDN `uuid:test-1234`, requested bind
`(0.0.0.0, 0)` and a transport that actually binds port `49153` on any
address, `getPort` returns the string `49153` (the actual bound port, not
the requested one) and `getVirtualURL` returns exactly
`http://<ip>:49153/content/`. -/
theorem scenarioA (ipaddr : String) :
    ∃ s1 s2, Server.initial.init scenarioConfig = Except.ok s1 ∧
      s1.upnp_init (scenarioTransport ipaddr) "0.0.0.0" 0 = Except.ok s2 ∧
      s2.getPort = "49153" ∧
      s2.getVirtualURL = "http://" ++ ipaddr ++ ":49153/content/" := by
  refine ⟨_, _, rfl, rfl, ?_, ?_⟩
  · show toString (49153 : Nat) = "49153"
    rfl
  · show "http://" ++ ipaddr ++ ":" ++ toString (49153 : Nat) ++ "/" ++ "content"
      ++ "/" = "http://" ++ ipaddr ++ ":49153/content/"
    simp only [String.append_assoc]
    rfl

/-- C8: a transport event whose type tag is outside the Request
Translator's closed fixed table (neither an action invocation nor a
subscription request) makes `upnp_callback` return a protocol-level
translation failure to the transport, invokes no registered service, and
that failure is distinguishable from every processed outcome — the event
is never silently ignored. -/
theorem unrecognized_event_rejected (s : Server) (r : Registry)
    (et : Upnp_EventType) (ev : EventPayload) (ck : Nat)
    (h1 : et ≠ Upnp_EventType.controlActionRequest)
    (h2 : et ≠ Upnp_EventType.eventSubscriptionRequest) :
    s.upnp_callback r et ev ck =
      (CallbackStatus.translationError
        (TranslationError.unrecognizedEventType et), [], s) ∧
    ∀ res : DispatchResult,
      CallbackStatus.translationError (TranslationError.unrecognizedEventType et) ≠
        CallbackStatus.processed res := by
  constructor
  · have ht : translate et ev =
        Except.error (TranslationError.unrecognizedEventType et) := by
      cases et <;> simp_all [translate]
    simp [Server.upnp_callback, ht]
  · intro res
    simp

/-- C8 witness: a GetVar control event (not in the translator's table) is
rejected as a translation error with no service invoked. -/
theorem unrecognized_event_rejected_witness :
    Server.initial.upnp_callback sampleRegistry
        Upnp_EventType.controlGetVarRequest sampleEvent.event 0 =
      (CallbackStatus.translationError
        (TranslationError.unrecognizedEventType
          Upnp_EventType.controlGetVarRequest), [], Server.initial) ∧
    ∀ res : DispatchResult,
      CallbackStatus.translationError
        (TranslationError.unrecognizedEventType
          Upnp_EventType.controlGetVarRequest) ≠
        CallbackStatus.processed res :=
  unrecognized_event_rejected Server.initial sampleRegistry
    Upnp_EventType.controlGetVarRequest sampleEvent.event 0
    (by decide) (by decide)

/-- C9: the `cookie` argument of `upnp_callback` is unused: for every
event type, payload and pair of cookie values, the two invocations return
the same status, service trace and dispatcher state. -/
theorem upnp_callback_cookie_unused (s : Server) (r : Registry)
    (et : Upnp_EventType) (ev : EventPayload) (c1 c2 : Nat) :
    s.upnp_callback r et ev c1 = s.upnp_callback r et ev c2 :=
  rfl

/-- C10: `getDeviceHandle` and `getVirtualURL` are direct field reads:
they return exactly the stored `device_handle` and `virtual_url` fields,
and — being pure functions of the state — modify no field of the
dispatcher. -/
theorem accessors_are_field_reads (s : Server) :
    s.getDeviceHandle = s.device_handle ∧ s.getVirtualURL = s.virtual_url :=
  ⟨rfl, rfl⟩

end Gerbera
